import Mathlib

/-!
# Verification of the zpy analyzer data model and utility contracts

This development embeds the data model of `modules/core/models.py`
(the `Issue`, `Fix`, `ReportSummary`, `Report` and `Config` dataclasses,
the `Severity` and `IssueCategory` enumerations, their constructor
validation and their `to_dict` / `from_dict` serialization), the
`create_backup` operation of `modules/utils/file_utils.py`, and the
`is_monorepo` probe of `modules/utils/env_utils.py`, and proves the
stated invariants, round-trip laws and error behaviours.

Dictionaries exchanged with the serialization layer are association
lists over a universe `DVal` of Python runtime values; Python exceptions
are an explicit `PyErr` sum, and every fallible operation returns
`Except PyErr`.
-/

namespace Zpy

/-- Python exceptions raised by the embedded code, by kind and message. -/
inductive PyErr where
  | valueError (msg : String)
  | keyError (key : String)
  | typeError (msg : String)
  | fileNotFoundError (msg : String)
deriving DecidableEq, Repr

/-- Universe of Python runtime values appearing in serialized dictionaries. -/
inductive DVal where
  | str (s : String)
  | int (n : Int)
  | bool (b : Bool)
  | none
  | list (xs : List DVal)
  | dict (kvs : List (String × DVal))

/-- A Python dictionary with string keys, as an association list. -/
abbrev Dict := List (String × DVal)

/-- Lookup of a key in a dictionary (`data[k]` / `data.get(k)` share this). -/
def dlookup : Dict → String → Option DVal
  | [], _ => Option.none
  | (k2, v) :: rest, k => if k2 = k then some v else dlookup rest k

/-- `data[k]`: the value at `k`, or a `KeyError` when the key is absent. -/
def getItem (d : Dict) (k : String) : Except PyErr DVal :=
  match dlookup d k with
  | some v => .ok v
  | Option.none => .error (.keyError k)

/-- Coerce a runtime value to a string, as the typed field extraction does. -/
def asStr : DVal → Except PyErr String
  | .str s => .ok s
  | _ => .error (.typeError "expected str")

/-- Coerce a runtime value to an integer. -/
def asInt : DVal → Except PyErr Int
  | .int n => .ok n
  | _ => .error (.typeError "expected int")

/-- Coerce a runtime value to a boolean. -/
def asBool : DVal → Except PyErr Bool
  | .bool b => .ok b
  | _ => .error (.typeError "expected bool")

/-- Coerce a runtime value to a list. -/
def asList : DVal → Except PyErr (List DVal)
  | .list xs => .ok xs
  | _ => .error (.typeError "expected list")

/-- Coerce a runtime value to a dictionary. -/
def asDict : DVal → Except PyErr Dict
  | .dict kvs => .ok kvs
  | _ => .error (.typeError "expected dict")

/-- `data[k]` read as a string. -/
def getStr (d : Dict) (k : String) : Except PyErr String :=
  getItem d k >>= asStr

/-- `data[k]` read as an integer. -/
def getInt (d : Dict) (k : String) : Except PyErr Int :=
  getItem d k >>= asInt

/-- `data.get(k)` read as an optional string (absent and `None` coincide). -/
def getOptStr (d : Dict) (k : String) : Except PyErr (Option String) :=
  match dlookup d k with
  | Option.none => .ok Option.none
  | some .none => .ok Option.none
  | some (.str s) => .ok (some s)
  | some _ => .error (.typeError "expected str or None")

/-- `data.get(k, dflt)` read as a string. -/
def getStrD (d : Dict) (k : String) (dflt : String) : Except PyErr String :=
  match dlookup d k with
  | Option.none => .ok dflt
  | some v => asStr v

/-- `data.get(k, dflt)` read as a boolean. -/
def getBoolD (d : Dict) (k : String) (dflt : Bool) : Except PyErr Bool :=
  match dlookup d k with
  | Option.none => .ok dflt
  | some v => asBool v

/-- `data.get(k, [])` read as a list. -/
def getListD (d : Dict) (k : String) : Except PyErr (List DVal) :=
  match dlookup d k with
  | Option.none => .ok []
  | some v => asList v

/-- `data.get(k, \x7b\x7d)` read as a dictionary. -/
def getDictD (d : Dict) (k : String) : Except PyErr Dict :=
  match dlookup d k with
  | Option.none => .ok []
  | some v => asDict v

/-- The `Severity` enumeration: severity levels for issues. -/
inductive Severity where
  | ERROR
  | WARNING
  | INFO
deriving DecidableEq, Repr

/-- The literal string value of a `Severity` member. -/
def Severity.value : Severity → String
  | .ERROR => "error"
  | .WARNING => "warning"
  | .INFO => "info"

/-- `Severity(s)`: value lookup in the enumeration, by exact string match. -/
def Severity.fromValue (s : String) : Except PyErr Severity :=
  if s = "error" then .ok .ERROR
  else if s = "warning" then .ok .WARNING
  else if s = "info" then .ok .INFO
  else .error (.valueError ("\x27" ++ s ++ "\x27 is not a valid Severity"))

/-- `Severity(v)` applied to an arbitrary runtime value. -/
def Severity.fromDVal : DVal → Except PyErr Severity
  | .str s => Severity.fromValue s
  | _ => .error (.valueError "not a valid Severity")

/-- The `IssueCategory` enumeration: categories for issues. -/
inductive IssueCategory where
  | TYPE_ERROR
  | STYLE_VIOLATION
  | IMPORT_ISSUE
deriving DecidableEq, Repr

/-- The literal string value of an `IssueCategory` member. -/
def IssueCategory.value : IssueCategory → String
  | .TYPE_ERROR => "type-error"
  | .STYLE_VIOLATION => "style-violation"
  | .IMPORT_ISSUE => "import-issue"

/-- `IssueCategory(s)`: value lookup in the enumeration. -/
def IssueCategory.fromValue (s : String) : Except PyErr IssueCategory :=
  if s = "type-error" then .ok .TYPE_ERROR
  else if s = "style-violation" then .ok .STYLE_VIOLATION
  else if s = "import-issue" then .ok .IMPORT_ISSUE
  else .error (.valueError ("\x27" ++ s ++ "\x27 is not a valid IssueCategory"))

/-- `IssueCategory(v)` applied to an arbitrary runtime value. -/
def IssueCategory.fromDVal : DVal → Except PyErr IssueCategory
  | .str s => IssueCategory.fromValue s
  | _ => .error (.valueError "not a valid IssueCategory")

/-- The `Issue` dataclass: one finding of an analysis tool. -/
structure Issue where
  file_path : String
  line : Int
  column : Int
  severity : Severity
  category : IssueCategory
  code : String
  message : String
  suggestion : Option String
  source : String
deriving DecidableEq, Repr

/-- `Issue.__post_init__`: field validation run by the generated
constructor; returns the instance unchanged when every check passes. -/
def Issue.post_init (i : Issue) : Except PyErr Issue :=
  if i.line < 1 then .error (.valueError "Line number must be >= 1")
  else if i.column < 1 then .error (.valueError "Column number must be >= 1")
  else if i.file_path = "" then .error (.valueError "file_path cannot be empty")
  else if i.code = "" then .error (.valueError "code cannot be empty")
  else if i.message = "" then .error (.valueError "message cannot be empty")
  else if i.source = "pyright" ∨ i.source = "ruff" then .ok i
  else .error (.valueError "source must be \x27pyright\x27 or \x27ruff\x27")

/-- `Issue(...)`: the dataclass constructor, which validates via
`__post_init__` before an instance escapes. -/
def mkIssue (file_path : String) (line column : Int) (severity : Severity)
    (category : IssueCategory) (code message : String)
    (suggestion : Option String) (source : String) : Except PyErr Issue :=
  Issue.post_init
    ⟨file_path, line, column, severity, category, code, message, suggestion, source⟩

/-- `Issue(...)` with the `source` parameter left at its declared
default, the empty string. -/
def mkIssueDefaultSource (file_path : String) (line column : Int)
    (severity : Severity) (category : IssueCategory) (code message : String)
    (suggestion : Option String) : Except PyErr Issue :=
  mkIssue file_path line column severity category code message suggestion ""

/-- The suggestion field as a runtime value (`None` when absent). -/
def optStrVal : Option String → DVal
  | some s => .str s
  | Option.none => .none

/-- `Issue.to_dict`. -/
def Issue.to_dict (i : Issue) : Dict :=
  [("file_path", .str i.file_path),
   ("line", .int i.line),
   ("column", .int i.column),
   ("severity", .str i.severity.value),
   ("category", .str i.category.value),
   ("code", .str i.code),
   ("message", .str i.message),
   ("suggestion", optStrVal i.suggestion),
   ("source", .str i.source)]

/-- `Issue.from_dict`. -/
def Issue.from_dict (d : Dict) : Except PyErr Issue := do
  let fp ← getStr d "file_path"
  let line ← getInt d "line"
  let column ← getInt d "column"
  let sev ← getItem d "severity" >>= Severity.fromDVal
  let cat ← getItem d "category" >>= IssueCategory.fromDVal
  let code ← getStr d "code"
  let msg ← getStr d "message"
  let sugg ← getOptStr d "suggestion"
  let src ← getStrD d "source" ""
  mkIssue fp line column sev cat code msg sugg src

/-- The `Issue` invariants of the specification. -/
def Issue.Valid (i : Issue) : Prop :=
  1 ≤ i.line ∧ 1 ≤ i.column ∧ i.file_path ≠ "" ∧ i.code ≠ "" ∧
    i.message ≠ "" ∧ (i.source = "pyright" ∨ i.source = "ruff")

instance (i : Issue) : Decidable i.Valid := by
  unfold Issue.Valid; infer_instance

/-- `__post_init__` succeeds exactly on instances satisfying the six
invariants, and returns the instance unchanged. -/
theorem Issue.post_init_ok_iff (x y : Issue) :
    Issue.post_init x = .ok y ↔ (y = x ∧ x.Valid) := by
  unfold Issue.post_init Issue.Valid
  constructor
  · intro h
    split_ifs at h with h1 h2 h3 h4 h5 h6 <;> simp_all
  · rintro ⟨rfl, hl, hc, hfp, hco, hm, hs⟩
    rw [if_neg (by omega), if_neg (by omega), if_neg hfp, if_neg hco,
      if_neg hm, if_pos hs]

/-- Binding a success just applies the continuation. -/
theorem ok_bind {α β : Type} (a : α) (f : α → Except PyErr β) :
    (Except.ok a >>= f) = f a := rfl

/-- A bind is a success exactly when both stages succeed. -/
theorem bind_ok_iff {α β : Type} (x : Except PyErr α)
    (f : α → Except PyErr β) (b : β) :
    (x >>= f) = .ok b ↔ ∃ a, x = .ok a ∧ f a = .ok b := by
  cases x <;> simp [Bind.bind, Except.bind]

/-- Enumeration round-trip: deserializing the literal value of a
`Severity` member returns that member. -/
theorem Severity.fromValue_value (s : Severity) :
    Severity.fromValue s.value = .ok s := by
  cases s <;> rfl

/-- Enumeration round-trip for `IssueCategory`. -/
theorem category_fromValue_value (c : IssueCategory) :
    IssueCategory.fromValue c.value = .ok c := by
  cases c <;> rfl

/-- Issue serialization round-trip on valid instances. -/
theorem Issue.from_dict_to_dict (i : Issue) (h : i.Valid) :
    Issue.from_dict i.to_dict = .ok i := by
  obtain ⟨fp, l, c, sev, cat, co, ms, su, so⟩ := i
  have e1 : getStr (Issue.to_dict ⟨fp, l, c, sev, cat, co, ms, su, so⟩) "file_path" = .ok fp := rfl
  have e2 : getInt (Issue.to_dict ⟨fp, l, c, sev, cat, co, ms, su, so⟩) "line" = .ok l := rfl
  have e3 : getInt (Issue.to_dict ⟨fp, l, c, sev, cat, co, ms, su, so⟩) "column" = .ok c := rfl
  have e4 : getItem (Issue.to_dict ⟨fp, l, c, sev, cat, co, ms, su, so⟩) "severity" = .ok (.str sev.value) := rfl
  have e5 : getItem (Issue.to_dict ⟨fp, l, c, sev, cat, co, ms, su, so⟩) "category" = .ok (.str cat.value) := rfl
  have e6 : getStr (Issue.to_dict ⟨fp, l, c, sev, cat, co, ms, su, so⟩) "code" = .ok co := rfl
  have e7 : getStr (Issue.to_dict ⟨fp, l, c, sev, cat, co, ms, su, so⟩) "message" = .ok ms := rfl
  have e8 : getOptStr (Issue.to_dict ⟨fp, l, c, sev, cat, co, ms, su, so⟩) "suggestion" = .ok su := by
    cases su <;> rfl
  have e9 : getStrD (Issue.to_dict ⟨fp, l, c, sev, cat, co, ms, su, so⟩) "source" "" = .ok so := rfl
  rw [Issue.from_dict, e1, ok_bind, e2, ok_bind, e3, ok_bind, e4]
  rw [show ((Except.ok (DVal.str sev.value) : Except PyErr DVal) >>= Severity.fromDVal)
        = Severity.fromDVal (.str sev.value) from rfl]
  rw [show Severity.fromDVal (.str sev.value) = Severity.fromValue sev.value from rfl,
    Severity.fromValue_value, ok_bind, e5]
  rw [show ((Except.ok (DVal.str cat.value) : Except PyErr DVal) >>= IssueCategory.fromDVal)
        = IssueCategory.fromDVal (.str cat.value) from rfl]
  rw [show IssueCategory.fromDVal (.str cat.value) = IssueCategory.fromValue cat.value from rfl,
    category_fromValue_value, ok_bind, e6, ok_bind, e7, ok_bind, e8, ok_bind, e9, ok_bind]
  exact (Issue.post_init_ok_iff _ _).mpr ⟨rfl, h⟩

/-- The `Fix` dataclass: a proposed remediation for exactly one issue. -/
structure Fix where
  file_path : String
  original_code : String
  fixed_code : String
  issue : Issue
  explanation : String
  safe : Bool
deriving DecidableEq, Repr

/-- `Fix.__post_init__`. -/
def Fix.post_init (f : Fix) : Except PyErr Fix :=
  if f.file_path = "" then .error (.valueError "file_path cannot be empty")
  else if f.explanation = "" then .error (.valueError "explanation cannot be empty")
  else if f.original_code = f.fixed_code then
    .error (.valueError "original_code and fixed_code cannot be identical")
  else .ok f

/-- `Fix(...)`: the dataclass constructor with validation. -/
def mkFix (file_path original_code fixed_code : String) (issue : Issue)
    (explanation : String) (safe : Bool) : Except PyErr Fix :=
  Fix.post_init ⟨file_path, original_code, fixed_code, issue, explanation, safe⟩

/-- `Fix.to_dict`. -/
def Fix.to_dict (f : Fix) : Dict :=
  [("file_path", .str f.file_path),
   ("original_code", .str f.original_code),
   ("fixed_code", .str f.fixed_code),
   ("issue", .dict f.issue.to_dict),
   ("explanation", .str f.explanation),
   ("safe", .bool f.safe)]

/-- `Fix.from_dict`. -/
def Fix.from_dict (d : Dict) : Except PyErr Fix := do
  let fp ← getStr d "file_path"
  let oc ← getStr d "original_code"
  let fc ← getStr d "fixed_code"
  let iss ← getItem d "issue" >>= asDict >>= Issue.from_dict
  let ex ← getStr d "explanation"
  let safe ← getBoolD d "safe" true
  mkFix fp oc fc iss ex safe

/-- The `Fix` invariants; a valid fix carries a valid issue, since every
construction path validates the nested issue before the fix exists. -/
def Fix.Valid (f : Fix) : Prop :=
  f.file_path ≠ "" ∧ f.explanation ≠ "" ∧ f.original_code ≠ f.fixed_code ∧
    f.issue.Valid

instance (f : Fix) : Decidable f.Valid := by
  unfold Fix.Valid; infer_instance

/-- `Fix.__post_init__` succeeds exactly on instances satisfying the
fix-level invariants, and returns the instance unchanged. -/
theorem fix_post_init_ok_iff (x y : Fix) :
    Fix.post_init x = .ok y ↔
      (y = x ∧ x.file_path ≠ "" ∧ x.explanation ≠ "" ∧
        x.original_code ≠ x.fixed_code) := by
  unfold Fix.post_init
  constructor
  · intro h
    split_ifs at h with h1 h2 h3 <;> simp_all
  · rintro ⟨rfl, hfp, hex, hoc⟩
    rw [if_neg hfp, if_neg hex, if_neg hoc]

/-- Fix serialization round-trip on valid instances. -/
theorem fix_from_dict_to_dict (f : Fix) (h : f.Valid) :
    Fix.from_dict f.to_dict = .ok f := by
  obtain ⟨hfp, hex, hoc, hiss⟩ := h
  obtain ⟨fp, oc, fc, iss, ex, safe⟩ := f
  have e1 : getStr (Fix.to_dict ⟨fp, oc, fc, iss, ex, safe⟩) "file_path" = .ok fp := rfl
  have e2 : getStr (Fix.to_dict ⟨fp, oc, fc, iss, ex, safe⟩) "original_code" = .ok oc := rfl
  have e3 : getStr (Fix.to_dict ⟨fp, oc, fc, iss, ex, safe⟩) "fixed_code" = .ok fc := rfl
  have e4 : getItem (Fix.to_dict ⟨fp, oc, fc, iss, ex, safe⟩) "issue" = .ok (.dict iss.to_dict) := rfl
  have e5 : getStr (Fix.to_dict ⟨fp, oc, fc, iss, ex, safe⟩) "explanation" = .ok ex := rfl
  have e6 : getBoolD (Fix.to_dict ⟨fp, oc, fc, iss, ex, safe⟩) "safe" true = .ok safe := rfl
  rw [Fix.from_dict, e1, ok_bind, e2, ok_bind, e3, ok_bind, e4]
  rw [show ((Except.ok (DVal.dict iss.to_dict) : Except PyErr DVal) >>= asDict)
        = .ok iss.to_dict from rfl, ok_bind,
    Issue.from_dict_to_dict iss hiss, ok_bind, e5, ok_bind, e6, ok_bind]
  exact (fix_post_init_ok_iff _ _).mpr ⟨rfl, hfp, hex, hoc⟩

/-- The `ReportSummary` dataclass: aggregate counts for a report.  The
`by_category` and `by_file` mappings are stored and serialized as-is. -/
structure ReportSummary where
  total_issues : Int
  errors : Int
  warnings : Int
  infos : Int
  by_category : List (String × DVal)
  by_file : List (String × DVal)

/-- `ReportSummary.__post_init__`. -/
def ReportSummary.post_init (s : ReportSummary) : Except PyErr ReportSummary :=
  if s.total_issues < 0 then .error (.valueError "total_issues cannot be negative")
  else if s.errors < 0 then .error (.valueError "errors cannot be negative")
  else if s.warnings < 0 then .error (.valueError "warnings cannot be negative")
  else if s.infos < 0 then .error (.valueError "infos cannot be negative")
  else if s.errors + s.warnings + s.infos ≠ s.total_issues then
    .error (.valueError "Sum of errors, warnings, and infos must equal total_issues")
  else .ok s

/-- `ReportSummary(...)`: the dataclass constructor with validation. -/
def mkReportSummary (total_issues errors warnings infos : Int)
    (by_category by_file : List (String × DVal)) : Except PyErr ReportSummary :=
  ReportSummary.post_init ⟨total_issues, errors, warnings, infos, by_category, by_file⟩

/-- `ReportSummary.to_dict`. -/
def ReportSummary.to_dict (s : ReportSummary) : Dict :=
  [("total_issues", .int s.total_issues),
   ("errors", .int s.errors),
   ("warnings", .int s.warnings),
   ("infos", .int s.infos),
   ("by_category", .dict s.by_category),
   ("by_file", .dict s.by_file)]

/-- `ReportSummary.from_dict`. -/
def ReportSummary.from_dict (d : Dict) : Except PyErr ReportSummary := do
  let t ← getInt d "total_issues"
  let e ← getInt d "errors"
  let w ← getInt d "warnings"
  let i ← getInt d "infos"
  let bc ← getDictD d "by_category"
  let bf ← getDictD d "by_file"
  mkReportSummary t e w i bc bf

/-- The `ReportSummary` invariants. -/
def ReportSummary.Valid (s : ReportSummary) : Prop :=
  0 ≤ s.total_issues ∧ 0 ≤ s.errors ∧ 0 ≤ s.warnings ∧ 0 ≤ s.infos ∧
    s.errors + s.warnings + s.infos = s.total_issues

instance (s : ReportSummary) : Decidable s.Valid := by
  unfold ReportSummary.Valid; infer_instance

/-- `ReportSummary.__post_init__` succeeds exactly on instances
satisfying the counting invariants, and returns the instance unchanged. -/
theorem summary_post_init_ok_iff (x y : ReportSummary) :
    ReportSummary.post_init x = .ok y ↔ (y = x ∧ x.Valid) := by
  unfold ReportSummary.post_init ReportSummary.Valid
  constructor
  · intro h
    split_ifs at h with h1 h2 h3 h4 h5 <;> simp_all
  · rintro ⟨rfl, h1, h2, h3, h4, h5⟩
    rw [if_neg (by omega), if_neg (by omega), if_neg (by omega),
      if_neg (by omega), if_neg (by simp [h5])]

/-- ReportSummary serialization round-trip on valid instances. -/
theorem summary_from_dict_to_dict (s : ReportSummary) (h : s.Valid) :
    ReportSummary.from_dict s.to_dict = .ok s := by
  obtain ⟨t, e, w, i, bc, bf⟩ := s
  have e1 : getInt (ReportSummary.to_dict ⟨t, e, w, i, bc, bf⟩) "total_issues" = .ok t := rfl
  have e2 : getInt (ReportSummary.to_dict ⟨t, e, w, i, bc, bf⟩) "errors" = .ok e := rfl
  have e3 : getInt (ReportSummary.to_dict ⟨t, e, w, i, bc, bf⟩) "warnings" = .ok w := rfl
  have e4 : getInt (ReportSummary.to_dict ⟨t, e, w, i, bc, bf⟩) "infos" = .ok i := rfl
  have e5 : getDictD (ReportSummary.to_dict ⟨t, e, w, i, bc, bf⟩) "by_category" = .ok bc := rfl
  have e6 : getDictD (ReportSummary.to_dict ⟨t, e, w, i, bc, bf⟩) "by_file" = .ok bf := rfl
  rw [ReportSummary.from_dict, e1, ok_bind, e2, ok_bind, e3, ok_bind, e4, ok_bind,
    e5, ok_bind, e6, ok_bind]
  exact (summary_post_init_ok_iff _ _).mpr ⟨rfl, h⟩

/-- Gregorian leap-year rule, as used by the datetime library. -/
def isLeapYear (y : Nat) : Bool :=
  (y % 4 == 0 && y % 100 != 0) || y % 400 == 0

/-- Number of days in a month of a given year. -/
def daysInMonth (y m : Nat) : Nat :=
  if m = 2 then (if isLeapYear y then 29 else 28)
  else if m = 4 ∨ m = 6 ∨ m = 9 ∨ m = 11 then 30
  else 31

/-- A naive `datetime.datetime` value (no timezone). -/
structure Datetime where
  year : Nat
  month : Nat
  day : Nat
  hour : Nat
  minute : Nat
  second : Nat
  microsecond : Nat
deriving DecidableEq, Repr

/-- The ranges the `datetime` constructor enforces. -/
def Datetime.Valid (t : Datetime) : Prop :=
  1 ≤ t.year ∧ t.year ≤ 9999 ∧ 1 ≤ t.month ∧ t.month ≤ 12 ∧
    1 ≤ t.day ∧ t.day ≤ daysInMonth t.year t.month ∧
    t.hour ≤ 23 ∧ t.minute ≤ 59 ∧ t.second ≤ 59 ∧ t.microsecond ≤ 999999

instance (t : Datetime) : Decidable t.Valid := by
  unfold Datetime.Valid; infer_instance

/-- `n` printed in decimal, zero-padded to exactly `w` digits. -/
def padDigits : Nat → Nat → List Char
  | 0, _ => []
  | w + 1, n => padDigits w (n / 10) ++ [Nat.digitChar (n % 10)]

/-- Decimal value of a digit string. -/
def readDigits (cs : List Char) : Nat :=
  cs.foldl (fun a c => a * 10 + (c.toNat - 48)) 0

theorem padDigits_length (w n : Nat) : (padDigits w n).length = w := by
  induction w generalizing n with
  | zero => rfl
  | succ w ih => simp [padDigits, ih]

theorem digitChar_spec (d : Nat) (h : d < 10) :
    (Nat.digitChar d).isDigit = true ∧ (Nat.digitChar d).toNat = 48 + d := by
  interval_cases d <;> exact ⟨rfl, rfl⟩

theorem readDigits_append (xs : List Char) (c : Char) :
    readDigits (xs ++ [c]) = readDigits xs * 10 + (c.toNat - 48) := by
  unfold readDigits
  rw [List.foldl_append]
  rfl

theorem readDigits_padDigits (w n : Nat) (h : n < 10 ^ w) :
    readDigits (padDigits w n) = n := by
  induction w generalizing n with
  | zero => simp at h; simp [h, padDigits, readDigits]
  | succ w ih =>
    have hd : n / 10 < 10 ^ w := by
      rw [Nat.div_lt_iff_lt_mul (by norm_num)]
      calc n < 10 ^ (w + 1) := h
        _ = 10 ^ w * 10 := by ring
    have hm : n % 10 < 10 := Nat.mod_lt _ (by norm_num)
    rw [padDigits, readDigits_append, ih _ hd, (digitChar_spec _ hm).2]
    omega

theorem padDigits_isDigit (w n : Nat) :
    (padDigits w n).all Char.isDigit = true := by
  induction w generalizing n with
  | zero => rfl
  | succ w ih =>
    rw [padDigits, List.all_append]
    have hm : n % 10 < 10 := Nat.mod_lt _ (by norm_num)
    simp [ih, (digitChar_spec _ hm).1]

/-- Consume exactly `w` decimal digits off the front of a character list. -/
def readFixed (w : Nat) (cs : List Char) : Option (Nat × List Char) :=
  if (cs.take w).length = w ∧ (cs.take w).all Char.isDigit = true then
    some (readDigits (cs.take w), cs.drop w)
  else Option.none

/-- Consume one expected character off the front. -/
def expectChar (c : Char) : List Char → Option (List Char)
  | [] => Option.none
  | x :: rest => if x = c then some rest else Option.none

theorem readFixed_pad (w n : Nat) (h : n < 10 ^ w) (rest : List Char) :
    readFixed w (padDigits w n ++ rest) = some (n, rest) := by
  have hlen : (padDigits w n).length = w := padDigits_length w n
  have htake : (padDigits w n ++ rest).take w = padDigits w n :=
    List.take_left' hlen
  have hdrop : (padDigits w n ++ rest).drop w = rest :=
    List.drop_left' hlen
  rw [readFixed, htake, hdrop, if_pos ⟨hlen, padDigits_isDigit w n⟩,
    readDigits_padDigits w n h]

theorem expectChar_cons (c : Char) (rest : List Char) :
    expectChar c (c :: rest) = some rest := by
  simp [expectChar]

/-- Parse the canonical `isoformat` text of a naive datetime:
`YYYY-MM-DDTHH:MM:SS` with an optional `.ffffff` fraction. -/
def parseIso (cs : List Char) : Option Datetime := do
  let (y, cs1) ← readFixed 4 cs
  let cs2 ← expectChar '-' cs1
  let (mo, cs3) ← readFixed 2 cs2
  let cs4 ← expectChar '-' cs3
  let (da, cs5) ← readFixed 2 cs4
  let cs6 ← expectChar 'T' cs5
  let (ho, cs7) ← readFixed 2 cs6
  let cs8 ← expectChar ':' cs7
  let (mi, cs9) ← readFixed 2 cs8
  let cs10 ← expectChar ':' cs9
  let (se, cs11) ← readFixed 2 cs10
  match cs11 with
  | [] => some ⟨y, mo, da, ho, mi, se, 0⟩
  | '.' :: frac =>
    match readFixed 6 frac with
    | some (us, []) => some ⟨y, mo, da, ho, mi, se, us⟩
    | _ => Option.none
  | _ => Option.none

/-- `datetime.isoformat()`: the canonical ISO-8601 text, with the
microsecond fraction appended only when it is non-zero. -/
def Datetime.isoformat (t : Datetime) : String :=
  ⟨padDigits 4 t.year ++ ('-' :: (padDigits 2 t.month ++ ('-' :: (padDigits 2 t.day ++
    ('T' :: (padDigits 2 t.hour ++ (':' :: (padDigits 2 t.minute ++
    (':' :: (padDigits 2 t.second ++
      (if t.microsecond = 0 then [] else '.' :: padDigits 6 t.microsecond)))))))))))⟩

/-- `datetime.fromisoformat`: parse the canonical text and validate the
component ranges, failing with a parse error otherwise. -/
def Datetime.fromisoformat (s : String) : Except PyErr Datetime :=
  match parseIso s.data with
  | some t =>
    if t.Valid then .ok t
    else .error (.valueError ("Invalid isoformat string: " ++ s))
  | Option.none => .error (.valueError ("Invalid isoformat string: " ++ s))

set_option maxHeartbeats 1600000 in
theorem parseIso_isoformat (t : Datetime) (h : t.Valid) :
    parseIso (Datetime.isoformat t).data = some t := by
  obtain ⟨y, mo, da, ho, mi, se, us⟩ := t
  obtain ⟨h1, h2, h3, h4, h5, h6, h7, h8, h9, h10⟩ :
      1 ≤ y ∧ y ≤ 9999 ∧ 1 ≤ mo ∧ mo ≤ 12 ∧ 1 ≤ da ∧ da ≤ daysInMonth y mo ∧
        ho ≤ 23 ∧ mi ≤ 59 ∧ se ≤ 59 ∧ us ≤ 999999 := h
  have hda : da ≤ 31 :=
    le_trans h6 (by unfold daysInMonth; split_ifs <;> norm_num)
  have r1 := readFixed_pad 4 y (by norm_num; omega)
  have r2 := readFixed_pad 2 mo (by norm_num; omega)
  have r3 := readFixed_pad 2 da (by norm_num; omega)
  have r4 := readFixed_pad 2 ho (by norm_num; omega)
  have r5 := readFixed_pad 2 mi (by norm_num; omega)
  have r6 := readFixed_pad 2 se (by norm_num; omega)
  show parseIso (padDigits 4 y ++ ('-' :: (padDigits 2 mo ++ ('-' :: (padDigits 2 da ++
    ('T' :: (padDigits 2 ho ++ (':' :: (padDigits 2 mi ++
    (':' :: (padDigits 2 se ++
      (if us = 0 then [] else '.' :: padDigits 6 us)))))))))))) = some ⟨y, mo, da, ho, mi, se, us⟩
  by_cases hus : us = 0
  · subst hus
    have r6n : readFixed 2 (padDigits 2 se) = some (se, []) := by
      have := r6 []
      simpa using this
    rw [if_pos rfl, List.append_nil]
    simp only [parseIso, r1, r2, r3, r4, r5, r6n,
      expectChar_cons, Option.bind_eq_bind, Option.some_bind]
  · have r7 : readFixed 6 (padDigits 6 us) = some (us, []) := by
      have := readFixed_pad 6 us (by norm_num; omega) []
      simpa using this
    rw [if_neg hus]
    simp only [parseIso, r1, r2, r3, r4, r5, r6, r7,
      expectChar_cons, Option.bind_eq_bind, Option.some_bind]

/-- Timestamp round-trip: parsing the canonical text of a valid
datetime recovers it exactly. -/
theorem Datetime.fromisoformat_isoformat (t : Datetime) (h : t.Valid) :
    Datetime.fromisoformat t.isoformat = .ok t := by
  unfold Datetime.fromisoformat
  rw [parseIso_isoformat t h]
  simp [h]

/-- The `Report` dataclass: the complete result of one analysis run. -/
structure Report where
  issues : List Issue
  fixes : List Fix
  summary : ReportSummary
  timestamp : Datetime
  project_path : String

/-- `Report.__post_init__`. -/
def Report.post_init (r : Report) : Except PyErr Report :=
  if r.project_path = "" then .error (.valueError "project_path cannot be empty")
  else .ok r

/-- `Report.to_dict`. -/
def Report.to_dict (r : Report) : Dict :=
  [("issues", .list (r.issues.map (fun i => .dict i.to_dict))),
   ("fixes", .list (r.fixes.map (fun f => .dict f.to_dict))),
   ("summary", .dict r.summary.to_dict),
   ("timestamp", .str r.timestamp.isoformat),
   ("project_path", .str r.project_path)]

/-- `Report.from_dict`.  Note that the `issues` and `fixes` keys are
read with `data.get(..., [])` and so default to the empty sequence. -/
def Report.from_dict (d : Dict) : Except PyErr Report := do
  let issuesRaw ← getListD d "issues"
  let issues ← issuesRaw.mapM (fun v => asDict v >>= Issue.from_dict)
  let fixesRaw ← getListD d "fixes"
  let fixes ← fixesRaw.mapM (fun v => asDict v >>= Fix.from_dict)
  let sraw ← getItem d "summary"
  let sd ← asDict sraw
  let summary ← ReportSummary.from_dict sd
  let ts ← getStr d "timestamp"
  let timestamp ← Datetime.fromisoformat ts
  let pp ← getStr d "project_path"
  Report.post_init ⟨issues, fixes, summary, timestamp, pp⟩

/-- A valid report: valid members, a valid summary, a representable
timestamp and a non-empty project path. -/
def Report.Valid (r : Report) : Prop :=
  (∀ i ∈ r.issues, i.Valid) ∧ (∀ f ∈ r.fixes, f.Valid) ∧ r.summary.Valid ∧
    r.timestamp.Valid ∧ r.project_path ≠ ""

instance (r : Report) : Decidable r.Valid := by
  unfold Report.Valid; infer_instance

/-- `Report.__post_init__` succeeds exactly when the project path is
non-empty, and returns the instance unchanged. -/
theorem report_post_init_ok_iff (x y : Report) :
    Report.post_init x = .ok y ↔ (y = x ∧ x.project_path ≠ "") := by
  unfold Report.post_init
  split_ifs with h1 <;> simp_all
  exact eq_comm

/-- Deserializing a serialized list of valid issues recovers the list. -/
theorem mapM_issues_to_dict (l : List Issue) (h : ∀ i ∈ l, i.Valid) :
    (l.map (fun i => DVal.dict i.to_dict)).mapM
      (fun v => asDict v >>= Issue.from_dict) = .ok l := by
  induction l with
  | nil => rfl
  | cons a l ih =>
    rw [List.map_cons, List.mapM_cons,
      show asDict (DVal.dict a.to_dict) = .ok a.to_dict from rfl, ok_bind,
      Issue.from_dict_to_dict a (h a (List.mem_cons_self a l)), ok_bind,
      ih (fun i hi => h i (List.mem_cons_of_mem a hi)), ok_bind]
    rfl

/-- Deserializing a serialized list of valid fixes recovers the list. -/
theorem mapM_fixes_to_dict (l : List Fix) (h : ∀ f ∈ l, f.Valid) :
    (l.map (fun f => DVal.dict f.to_dict)).mapM
      (fun v => asDict v >>= Fix.from_dict) = .ok l := by
  induction l with
  | nil => rfl
  | cons a l ih =>
    rw [List.map_cons, List.mapM_cons,
      show asDict (DVal.dict a.to_dict) = .ok a.to_dict from rfl, ok_bind,
      fix_from_dict_to_dict a (h a (List.mem_cons_self a l)), ok_bind,
      ih (fun f hf => h f (List.mem_cons_of_mem a hf)), ok_bind]
    rfl

/-- Report serialization round-trip on valid instances. -/
theorem report_from_dict_to_dict (r : Report) (h : r.Valid) :
    Report.from_dict r.to_dict = .ok r := by
  obtain ⟨hIss, hFix, hSum, hTs, hPp⟩ := h
  obtain ⟨iss, fixes, summary, ts, pp⟩ := r
  have e1 : getListD (Report.to_dict ⟨iss, fixes, summary, ts, pp⟩) "issues"
      = .ok (iss.map (fun i => DVal.dict i.to_dict)) := rfl
  have e2 : getListD (Report.to_dict ⟨iss, fixes, summary, ts, pp⟩) "fixes"
      = .ok (fixes.map (fun f => DVal.dict f.to_dict)) := rfl
  have e3 : getItem (Report.to_dict ⟨iss, fixes, summary, ts, pp⟩) "summary"
      = .ok (.dict summary.to_dict) := rfl
  have e4 : getStr (Report.to_dict ⟨iss, fixes, summary, ts, pp⟩) "timestamp"
      = .ok ts.isoformat := rfl
  have e5 : getStr (Report.to_dict ⟨iss, fixes, summary, ts, pp⟩) "project_path"
      = .ok pp := rfl
  rw [Report.from_dict, e1, ok_bind, mapM_issues_to_dict iss hIss, ok_bind,
    e2, ok_bind, mapM_fixes_to_dict fixes hFix, ok_bind, e3, ok_bind,
    show (asDict (DVal.dict summary.to_dict)) = .ok summary.to_dict from rfl, ok_bind,
    summary_from_dict_to_dict summary hSum, ok_bind, e4, ok_bind,
    Datetime.fromisoformat_isoformat ts hTs, ok_bind, e5, ok_bind]
  exact (report_post_init_ok_iff _ _).mpr ⟨rfl, hPp⟩

/-- The `Config` dataclass: analyzer run configuration.  The two
tool-configuration mappings and the exclusion list are stored and
serialized as-is. -/
structure Config where
  project_path : String
  pyright_config : List (String × DVal)
  ruff_config : List (String × DVal)
  exclusions : List DVal
  google_style_guide : Bool
  auto_fix_enabled : Bool
  backup_enabled : Bool
  dry_run : Bool

/-- `Config.__post_init__`. -/
def Config.post_init (c : Config) : Except PyErr Config :=
  if c.project_path = "" then .error (.valueError "project_path cannot be empty")
  else .ok c

/-- `Config.to_dict`. -/
def Config.to_dict (c : Config) : Dict :=
  [("project_path", .str c.project_path),
   ("pyright_config", .dict c.pyright_config),
   ("ruff_config", .dict c.ruff_config),
   ("exclusions", .list c.exclusions),
   ("google_style_guide", .bool c.google_style_guide),
   ("auto_fix_enabled", .bool c.auto_fix_enabled),
   ("backup_enabled", .bool c.backup_enabled),
   ("dry_run", .bool c.dry_run)]

/-- `Config.from_dict`. -/
def Config.from_dict (d : Dict) : Except PyErr Config := do
  let pp ← getStr d "project_path"
  let pc ← getDictD d "pyright_config"
  let rc ← getDictD d "ruff_config"
  let ex ← getListD d "exclusions"
  let g ← getBoolD d "google_style_guide" true
  let a ← getBoolD d "auto_fix_enabled" true
  let b ← getBoolD d "backup_enabled" true
  let dr ← getBoolD d "dry_run" false
  Config.post_init ⟨pp, pc, rc, ex, g, a, b, dr⟩

/-- The `Config` invariant. -/
def Config.Valid (c : Config) : Prop := c.project_path ≠ ""

instance (c : Config) : Decidable c.Valid := by
  unfold Config.Valid; infer_instance

/-- `Config.__post_init__` succeeds exactly when the project path is
non-empty, and returns the instance unchanged. -/
theorem config_post_init_ok_iff (x y : Config) :
    Config.post_init x = .ok y ↔ (y = x ∧ x.project_path ≠ "") := by
  unfold Config.post_init
  split_ifs with h1 <;> simp_all
  exact eq_comm

/-- Config serialization round-trip on valid instances. -/
theorem config_from_dict_to_dict (c : Config) (h : c.Valid) :
    Config.from_dict c.to_dict = .ok c := by
  obtain ⟨pp, pc, rc, ex, g, a, b, dr⟩ := c
  have e1 : getStr (Config.to_dict ⟨pp, pc, rc, ex, g, a, b, dr⟩) "project_path" = .ok pp := rfl
  have e2 : getDictD (Config.to_dict ⟨pp, pc, rc, ex, g, a, b, dr⟩) "pyright_config" = .ok pc := rfl
  have e3 : getDictD (Config.to_dict ⟨pp, pc, rc, ex, g, a, b, dr⟩) "ruff_config" = .ok rc := rfl
  have e4 : getListD (Config.to_dict ⟨pp, pc, rc, ex, g, a, b, dr⟩) "exclusions" = .ok ex := rfl
  have e5 : getBoolD (Config.to_dict ⟨pp, pc, rc, ex, g, a, b, dr⟩) "google_style_guide" true = .ok g := rfl
  have e6 : getBoolD (Config.to_dict ⟨pp, pc, rc, ex, g, a, b, dr⟩) "auto_fix_enabled" true = .ok a := rfl
  have e7 : getBoolD (Config.to_dict ⟨pp, pc, rc, ex, g, a, b, dr⟩) "backup_enabled" true = .ok b := rfl
  have e8 : getBoolD (Config.to_dict ⟨pp, pc, rc, ex, g, a, b, dr⟩) "dry_run" false = .ok dr := rfl
  rw [Config.from_dict, e1, ok_bind, e2, ok_bind, e3, ok_bind, e4, ok_bind,
    e5, ok_bind, e6, ok_bind, e7, ok_bind, e8, ok_bind]
  exact (config_post_init_ok_iff _ _).mpr ⟨rfl, h⟩

/-- The concrete issue of the specification scenarios. -/
def sampleIssue : Issue :=
  ⟨"test.py", 10, 5, .ERROR, .TYPE_ERROR, "E501", "Line too long",
    some "Break the line", "ruff"⟩

/-- A concrete valid fix wrapping `sampleIssue`. -/
def sampleFix : Fix :=
  ⟨"test.py", "x = 1", "x = 2", sampleIssue, "Replace 1 with 2", true⟩

/-- A concrete valid summary. -/
def sampleSummary : ReportSummary := ⟨1, 1, 0, 0, [], []⟩

/-- A concrete valid timestamp. -/
def sampleDatetime : Datetime := ⟨2024, 1, 15, 10, 30, 0, 0⟩

/-- A concrete valid report. -/
def sampleReport : Report :=
  ⟨[sampleIssue], [sampleFix], sampleSummary, sampleDatetime, "/project"⟩

/-- A concrete valid configuration. -/
def sampleConfig : Config := ⟨"/project", [], [], [], true, true, true, false⟩

/-- C1: for every valid instance of the five entities, `from_dict` ∘
`to_dict` succeeds and returns a field-wise equal instance, including
the nested issue inside a fix and the nested issues, fixes, summary and
ISO-8601 timestamp inside a report. -/
theorem serialization_round_trip :
    (∀ i : Issue, i.Valid → Issue.from_dict i.to_dict = .ok i) ∧
    (∀ f : Fix, f.Valid → Fix.from_dict f.to_dict = .ok f) ∧
    (∀ s : ReportSummary, s.Valid → ReportSummary.from_dict s.to_dict = .ok s) ∧
    (∀ r : Report, r.Valid → Report.from_dict r.to_dict = .ok r) ∧
    (∀ c : Config, c.Valid → Config.from_dict c.to_dict = .ok c) :=
  ⟨Issue.from_dict_to_dict, fix_from_dict_to_dict, summary_from_dict_to_dict,
    report_from_dict_to_dict, config_from_dict_to_dict⟩

/-- C1 witness: the round-trip law applied to concrete valid instances
of all five entities. -/
theorem serialization_round_trip_witness :
    Issue.from_dict sampleIssue.to_dict = .ok sampleIssue ∧
    Fix.from_dict sampleFix.to_dict = .ok sampleFix ∧
    ReportSummary.from_dict sampleSummary.to_dict = .ok sampleSummary ∧
    Report.from_dict sampleReport.to_dict = .ok sampleReport ∧
    Config.from_dict sampleConfig.to_dict = .ok sampleConfig :=
  ⟨serialization_round_trip.1 sampleIssue (by decide),
    serialization_round_trip.2.1 sampleFix (by decide),
    serialization_round_trip.2.2.1 sampleSummary (by decide),
    serialization_round_trip.2.2.2.1 sampleReport (by decide),
    serialization_round_trip.2.2.2.2 sampleConfig (by decide)⟩

/-- The first validation check rejects a line number below one. -/
theorem Issue.post_init_line_err (x : Issue) (h : x.line < 1) :
    Issue.post_init x = .error (.valueError "Line number must be >= 1") := by
  unfold Issue.post_init
  rw [if_pos h]

/-- With every earlier check passing, an out-of-range source is
rejected with the source validation message. -/
theorem Issue.post_init_source_err (x : Issue) (h1 : ¬ x.line < 1)
    (h2 : ¬ x.column < 1) (h3 : ¬ x.file_path = "") (h4 : ¬ x.code = "")
    (h5 : ¬ x.message = "") (h6 : ¬ (x.source = "pyright" ∨ x.source = "ruff")) :
    Issue.post_init x
      = .error (.valueError "source must be \x27pyright\x27 or \x27ruff\x27") := by
  unfold Issue.post_init
  rw [if_neg h1, if_neg h2, if_neg h3, if_neg h4, if_neg h5, if_neg h6]

/-- C2: issue construction succeeds exactly when the six invariants
hold; a constructed instance always satisfies them; `line = 0` is
rejected with the line message, and `source = "flake8"` (with the other
fields valid) is rejected with the source message. -/
theorem issue_construction_validation :
    (∀ fp (l c : Int) sev cat co ms su src,
      (∃ i, mkIssue fp l c sev cat co ms su src = .ok i) ↔
        (1 ≤ l ∧ 1 ≤ c ∧ fp ≠ "" ∧ co ≠ "" ∧ ms ≠ "" ∧
          (src = "pyright" ∨ src = "ruff"))) ∧
    (∀ fp (l c : Int) sev cat co ms su src i,
      mkIssue fp l c sev cat co ms su src = .ok i → i.Valid) ∧
    (∀ fp (c : Int) sev cat co ms su src,
      mkIssue fp 0 c sev cat co ms su src
        = .error (.valueError "Line number must be >= 1")) ∧
    (∀ fp (l c : Int) sev cat co ms su,
      1 ≤ l → 1 ≤ c → fp ≠ "" → co ≠ "" → ms ≠ "" →
      mkIssue fp l c sev cat co ms su "flake8"
        = .error (.valueError "source must be \x27pyright\x27 or \x27ruff\x27")) := by
  refine ⟨?_, ?_, ?_, ?_⟩
  · intro fp l c sev cat co ms su src
    constructor
    · rintro ⟨i, hi⟩
      exact ((Issue.post_init_ok_iff _ _).mp hi).2
    · intro hv
      exact ⟨_, (Issue.post_init_ok_iff _ _).mpr ⟨rfl, hv⟩⟩
  · intro fp l c sev cat co ms su src i h
    obtain ⟨rfl, hv⟩ := (Issue.post_init_ok_iff _ _).mp h
    exact hv
  · intro fp c sev cat co ms su src
    exact Issue.post_init_line_err _ (by show (0:Int) < 1; norm_num)
  · intro fp l c sev cat co ms su hl hc hfp hco hms
    exact Issue.post_init_source_err _ (by show ¬ l < 1; omega)
      (by show ¬ c < 1; omega) hfp hco hms
      (by show ¬("flake8" = "pyright" ∨ "flake8" = "ruff"); decide)

/-- C2 witness: the two rejection scenarios and one successful
construction, at the concrete inputs of the specification. -/
theorem issue_construction_validation_witness :
    mkIssue "test.py" 0 5 .ERROR .TYPE_ERROR "E501" "Line too long"
        Option.none "ruff" = .error (.valueError "Line number must be >= 1") ∧
    mkIssue "test.py" 10 5 .ERROR .TYPE_ERROR "E501" "Line too long"
        Option.none "flake8"
      = .error (.valueError "source must be \x27pyright\x27 or \x27ruff\x27") ∧
    (∃ i, mkIssue "test.py" 10 5 .ERROR .TYPE_ERROR "E501" "Line too long"
        (some "Break the line") "ruff" = .ok i) :=
  ⟨issue_construction_validation.2.2.1 "test.py" 5 .ERROR .TYPE_ERROR "E501"
      "Line too long" Option.none "ruff",
    issue_construction_validation.2.2.2 "test.py" 10 5 .ERROR .TYPE_ERROR "E501"
      "Line too long" Option.none (by decide) (by decide) (by decide) (by decide)
      (by decide),
    (issue_construction_validation.1 "test.py" 10 5 .ERROR .TYPE_ERROR "E501"
      "Line too long" (some "Break the line") "ruff").mpr (by decide)⟩

/-- With the four counts non-negative, a broken counting identity is
rejected with the sum message. -/
theorem ReportSummary.post_init_sum_err (x : ReportSummary)
    (h1 : ¬ x.total_issues < 0) (h2 : ¬ x.errors < 0) (h3 : ¬ x.warnings < 0)
    (h4 : ¬ x.infos < 0) (h5 : x.errors + x.warnings + x.infos ≠ x.total_issues) :
    ReportSummary.post_init x
      = .error (.valueError "Sum of errors, warnings, and infos must equal total_issues") := by
  unfold ReportSummary.post_init
  rw [if_neg h1, if_neg h2, if_neg h3, if_neg h4, if_pos h5]

/-- C3: every constructed summary satisfies the counting identity with
non-negative counts; any non-negative quadruple violating the identity
is rejected with the sum message, and any negative count is rejected. -/
theorem summary_counting_invariant :
    (∀ (t e w i : Int) bc bf r, mkReportSummary t e w i bc bf = .ok r →
      r = ⟨t, e, w, i, bc, bf⟩ ∧ 0 ≤ t ∧ 0 ≤ e ∧ 0 ≤ w ∧ 0 ≤ i ∧ e + w + i = t) ∧
    (∀ (t e w i : Int) bc bf, 0 ≤ t → 0 ≤ e → 0 ≤ w → 0 ≤ i → e + w + i ≠ t →
      mkReportSummary t e w i bc bf
        = .error (.valueError "Sum of errors, warnings, and infos must equal total_issues")) ∧
    (∀ (t e w i : Int) bc bf, (t < 0 ∨ e < 0 ∨ w < 0 ∨ i < 0) →
      ∀ r, mkReportSummary t e w i bc bf ≠ .ok r) := by
  refine ⟨?_, ?_, ?_⟩
  · intro t e w i bc bf r h
    obtain ⟨rfl, hv⟩ := (summary_post_init_ok_iff _ _).mp h
    exact ⟨rfl, hv⟩
  · intro t e w i bc bf ht he hw hi hsum
    exact ReportSummary.post_init_sum_err _ (by show ¬ t < 0; omega)
      (by show ¬ e < 0; omega) (by show ¬ w < 0; omega)
      (by show ¬ i < 0; omega) (by show e + w + i ≠ t; exact hsum)
  · intro t e w i bc bf hneg r h
    obtain ⟨rfl, hv⟩ := (summary_post_init_ok_iff _ _).mp h
    have hv2 : 0 ≤ t ∧ 0 ≤ e ∧ 0 ≤ w ∧ 0 ≤ i ∧ e + w + i = t := hv
    omega

/-- C3 witness: the specification scenario `(10, 3, 5, 1)` is rejected,
the negative quadruple `(-1, -1, 0, 0)` cannot construct, and the
successful construction `(1, 1, 0, 0)` satisfies the identity. -/
theorem summary_counting_invariant_witness :
    mkReportSummary 10 3 5 1 [] []
        = .error (.valueError "Sum of errors, warnings, and infos must equal total_issues") ∧
    mkReportSummary (-1) (-1) 0 0 [] [] ≠ .ok ⟨-1, -1, 0, 0, [], []⟩ ∧
    (sampleSummary = ⟨1, 1, 0, 0, [], []⟩ ∧ (0:Int) ≤ 1 ∧ (0:Int) ≤ 1 ∧
      (0:Int) ≤ 0 ∧ (0:Int) ≤ 0 ∧ (1:Int) + 0 + 0 = 1) :=
  ⟨summary_counting_invariant.2.1 10 3 5 1 [] [] (by decide) (by decide)
      (by decide) (by decide) (by decide),
    summary_counting_invariant.2.2 (-1) (-1) 0 0 [] [] (by decide) ⟨-1, -1, 0, 0, [], []⟩,
    summary_counting_invariant.1 1 1 0 0 [] [] sampleSummary rfl⟩

/-- With file path and explanation non-empty, identical original and
fixed code is rejected with the no-op message. -/
theorem Fix.post_init_identical_err (x : Fix) (h1 : ¬ x.file_path = "")
    (h2 : ¬ x.explanation = "") (h3 : x.original_code = x.fixed_code) :
    Fix.post_init x
      = .error (.valueError "original_code and fixed_code cannot be identical") := by
  unfold Fix.post_init
  rw [if_neg h1, if_neg h2, if_pos h3]

/-- C4: a fix whose original and fixed code coincide never constructs,
for every string value; with the other fields valid the rejection
carries the "cannot be identical" message; and differing strings with
non-empty file path and explanation construct successfully. -/
theorem fix_noop_rejection :
    (∀ fp oc iss expl safe r, mkFix fp oc oc iss expl safe ≠ .ok r) ∧
    (∀ fp oc iss expl safe, fp ≠ "" → expl ≠ "" →
      mkFix fp oc oc iss expl safe
        = .error (.valueError "original_code and fixed_code cannot be identical")) ∧
    (∀ fp oc fc iss expl safe, fp ≠ "" → expl ≠ "" → oc ≠ fc →
      mkFix fp oc fc iss expl safe = .ok ⟨fp, oc, fc, iss, expl, safe⟩) := by
  refine ⟨?_, ?_, ?_⟩
  · intro fp oc iss expl safe r h
    obtain ⟨rfl, _, _, hne⟩ := (fix_post_init_ok_iff _ _).mp h
    exact hne rfl
  · intro fp oc iss expl safe hfp hex
    exact Fix.post_init_identical_err _ hfp hex rfl
  · intro fp oc fc iss expl safe hfp hex hne
    exact (fix_post_init_ok_iff _ _).mpr ⟨rfl, hfp, hex, hne⟩

/-- C4 witness: the specification scenario `original_code = fixed_code
= "x = 1"` is rejected with the no-op message, the empty-string no-op
cannot construct, and a differing pair constructs. -/
theorem fix_noop_rejection_witness :
    mkFix "test.py" "x = 1" "x = 1" sampleIssue "Some explanation" true
        = .error (.valueError "original_code and fixed_code cannot be identical") ∧
    mkFix "a.py" "" "" sampleIssue "unicode: é" false ≠ .ok sampleFix ∧
    mkFix "test.py" "x = 1" "x = 2" sampleIssue "Replace 1 with 2" true
        = .ok ⟨"test.py", "x = 1", "x = 2", sampleIssue, "Replace 1 with 2", true⟩ :=
  ⟨fix_noop_rejection.2.1 "test.py" "x = 1" sampleIssue "Some explanation" true
      (by decide) (by decide),
    fix_noop_rejection.1 "a.py" "" sampleIssue "unicode: é" false sampleFix,
    fix_noop_rejection.2.2 "test.py" "x = 1" "x = 2" sampleIssue "Replace 1 with 2"
      true (by decide) (by decide) (by decide)⟩

/-- C7: the two enumerations serialize under `to_dict` to exactly their
literal string values, deserialize by exact string match, and reject
every other string with an invalid-enumeration-value error. -/
theorem enum_serialization :
    (∀ i : Issue, dlookup i.to_dict "severity" = some (.str i.severity.value) ∧
      dlookup i.to_dict "category" = some (.str i.category.value)) ∧
    (Severity.value .ERROR = "error" ∧ Severity.value .WARNING = "warning" ∧
      Severity.value .INFO = "info" ∧
      IssueCategory.value .TYPE_ERROR = "type-error" ∧
      IssueCategory.value .STYLE_VIOLATION = "style-violation" ∧
      IssueCategory.value .IMPORT_ISSUE = "import-issue") ∧
    (∀ s : Severity, Severity.fromValue s.value = .ok s) ∧
    (∀ c : IssueCategory, IssueCategory.fromValue c.value = .ok c) ∧
    (∀ s, s ∉ (["error", "warning", "info"] : List String) →
      Severity.fromValue s
        = .error (.valueError ("\x27" ++ s ++ "\x27 is not a valid Severity"))) ∧
    (∀ s, s ∉ (["type-error", "style-violation", "import-issue"] : List String) →
      IssueCategory.fromValue s
        = .error (.valueError ("\x27" ++ s ++ "\x27 is not a valid IssueCategory"))) := by
  refine ⟨fun i => ⟨rfl, rfl⟩, ⟨rfl, rfl, rfl, rfl, rfl, rfl⟩,
    Severity.fromValue_value, category_fromValue_value, ?_, ?_⟩
  · intro s hs
    simp only [List.mem_cons, List.not_mem_nil, or_false, not_or] at hs
    obtain ⟨n1, n2, n3⟩ := hs
    unfold Severity.fromValue
    rw [if_neg n1, if_neg n2, if_neg n3]
  · intro s hs
    simp only [List.mem_cons, List.not_mem_nil, or_false, not_or] at hs
    obtain ⟨n1, n2, n3⟩ := hs
    unfold IssueCategory.fromValue
    rw [if_neg n1, if_neg n2, if_neg n3]

/-- C7 witness: the rejection conjuncts applied to the string
`"flake8"`, plus the serialization of the specification scenario. -/
theorem enum_serialization_witness :
    Severity.fromValue "flake8"
        = .error (.valueError ("\x27" ++ "flake8" ++ "\x27 is not a valid Severity")) ∧
    IssueCategory.fromValue "flake8"
        = .error (.valueError ("\x27" ++ "flake8" ++ "\x27 is not a valid IssueCategory")) ∧
    dlookup sampleIssue.to_dict "severity" = some (.str sampleIssue.severity.value) :=
  ⟨enum_serialization.2.2.2.2.1 "flake8" (by decide),
    enum_serialization.2.2.2.2.2 "flake8" (by decide),
    (enum_serialization.1 sampleIssue).1⟩

/-- C10: with `source` defaulting to the empty string, construction
without an explicit source never succeeds; `Issue.from_dict` on a
mapping without a `"source"` key never succeeds, and on an
otherwise-valid mapping it fails with the source validation error
rather than a missing-key error. -/
theorem default_source_always_fails :
    (∀ fp (l c : Int) sev cat co ms su r,
      mkIssueDefaultSource fp l c sev cat co ms su ≠ .ok r) ∧
    (∀ d, dlookup d "source" = Option.none →
      ∀ i, Issue.from_dict d ≠ .ok i) ∧
    (∀ fp (l c : Int) (sev : Severity) (cat : IssueCategory) co ms su,
      1 ≤ l → 1 ≤ c → fp ≠ "" → co ≠ "" → ms ≠ "" →
      Issue.from_dict
        [("file_path", .str fp), ("line", .int l), ("column", .int c),
          ("severity", .str sev.value), ("category", .str cat.value),
          ("code", .str co), ("message", .str ms), ("suggestion", optStrVal su)]
        = .error (.valueError "source must be \x27pyright\x27 or \x27ruff\x27")) := by
  refine ⟨?_, ?_, ?_⟩
  · intro fp l c sev cat co ms su r h
    obtain ⟨rfl, hv⟩ := (Issue.post_init_ok_iff _ _).mp h
    rcases hv.2.2.2.2.2 with h6 | h6
    · exact absurd h6 (by show ¬("" = "pyright"); decide)
    · exact absurd h6 (by show ¬("" = "ruff"); decide)
  · intro d hd i h
    rw [Issue.from_dict] at h
    simp only [bind_ok_iff] at h
    obtain ⟨fp, hfp, l, hl, c, hc, sev, hsev, cat, hcat, co, hco, ms, hms,
      su, hsu, src, hsrc, hmk⟩ := h
    have hsrc0 : src = "" := by
      rw [getStrD, hd] at hsrc
      exact (Except.ok.inj hsrc).symm
    subst hsrc0
    obtain ⟨rfl, hv⟩ := (Issue.post_init_ok_iff _ _).mp hmk
    rcases hv.2.2.2.2.2 with h6 | h6
    · exact absurd h6 (by show ¬("" = "pyright"); decide)
    · exact absurd h6 (by show ¬("" = "ruff"); decide)
  · intro fp l c sev cat co ms su hl hc hfp hco hms
    have e1 : getStr [("file_path", DVal.str fp), ("line", .int l), ("column", .int c),
        ("severity", .str sev.value), ("category", .str cat.value),
        ("code", .str co), ("message", .str ms), ("suggestion", optStrVal su)]
        "file_path" = .ok fp := rfl
    have e2 : getInt [("file_path", DVal.str fp), ("line", .int l), ("column", .int c),
        ("severity", .str sev.value), ("category", .str cat.value),
        ("code", .str co), ("message", .str ms), ("suggestion", optStrVal su)]
        "line" = .ok l := rfl
    have e3 : getInt [("file_path", DVal.str fp), ("line", .int l), ("column", .int c),
        ("severity", .str sev.value), ("category", .str cat.value),
        ("code", .str co), ("message", .str ms), ("suggestion", optStrVal su)]
        "column" = .ok c := rfl
    have e4 : getItem [("file_path", DVal.str fp), ("line", .int l), ("column", .int c),
        ("severity", .str sev.value), ("category", .str cat.value),
        ("code", .str co), ("message", .str ms), ("suggestion", optStrVal su)]
        "severity" = .ok (.str sev.value) := rfl
    have e5 : getItem [("file_path", DVal.str fp), ("line", .int l), ("column", .int c),
        ("severity", .str sev.value), ("category", .str cat.value),
        ("code", .str co), ("message", .str ms), ("suggestion", optStrVal su)]
        "category" = .ok (.str cat.value) := rfl
    have e6 : getStr [("file_path", DVal.str fp), ("line", .int l), ("column", .int c),
        ("severity", .str sev.value), ("category", .str cat.value),
        ("code", .str co), ("message", .str ms), ("suggestion", optStrVal su)]
        "code" = .ok co := rfl
    have e7 : getStr [("file_path", DVal.str fp), ("line", .int l), ("column", .int c),
        ("severity", .str sev.value), ("category", .str cat.value),
        ("code", .str co), ("message", .str ms), ("suggestion", optStrVal su)]
        "message" = .ok ms := rfl
    have e8 : getOptStr [("file_path", DVal.str fp), ("line", .int l), ("column", .int c),
        ("severity", .str sev.value), ("category", .str cat.value),
        ("code", .str co), ("message", .str ms), ("suggestion", optStrVal su)]
        "suggestion" = .ok su := by
      cases su <;> rfl
    have e9 : getStrD [("file_path", DVal.str fp), ("line", .int l), ("column", .int c),
        ("severity", .str sev.value), ("category", .str cat.value),
        ("code", .str co), ("message", .str ms), ("suggestion", optStrVal su)]
        "source" "" = .ok "" := rfl
    rw [Issue.from_dict, e1, ok_bind, e2, ok_bind, e3, ok_bind, e4]
    rw [show ((Except.ok (DVal.str sev.value) : Except PyErr DVal) >>= Severity.fromDVal)
          = Severity.fromDVal (.str sev.value) from rfl]
    rw [show Severity.fromDVal (.str sev.value) = Severity.fromValue sev.value from rfl,
      Severity.fromValue_value, ok_bind, e5]
    rw [show ((Except.ok (DVal.str cat.value) : Except PyErr DVal) >>= IssueCategory.fromDVal)
          = IssueCategory.fromDVal (.str cat.value) from rfl]
    rw [show IssueCategory.fromDVal (.str cat.value) = IssueCategory.fromValue cat.value from rfl,
      category_fromValue_value, ok_bind, e6, ok_bind, e7, ok_bind, e8, ok_bind,
      e9, ok_bind]
    exact Issue.post_init_source_err _ (by show ¬ l < 1; omega)
      (by show ¬ c < 1; omega) hfp hco hms
      (by show ¬("" = "pyright" ∨ "" = "ruff"); decide)

/-- C10 witness: the three conjuncts applied to concrete inputs:
defaulted-source construction, and a concrete mapping with no
`"source"` key. -/
theorem default_source_always_fails_witness :
    mkIssueDefaultSource "test.py" 10 5 .ERROR .TYPE_ERROR "E501" "Line too long"
        Option.none ≠ .ok sampleIssue ∧
    Issue.from_dict [("file_path", .str "test.py")] ≠ .ok sampleIssue ∧
    Issue.from_dict
        [("file_path", .str "test.py"), ("line", .int 10), ("column", .int 5),
          ("severity", .str "error"), ("category", .str "type-error"),
          ("code", .str "E501"), ("message", .str "Line too long"),
          ("suggestion", .none)]
        = .error (.valueError "source must be \x27pyright\x27 or \x27ruff\x27") :=
  ⟨default_source_always_fails.1 "test.py" 10 5 Severity.ERROR
      IssueCategory.TYPE_ERROR "E501" "Line too long" Option.none sampleIssue,
    default_source_always_fails.2.1 [("file_path", .str "test.py")] rfl sampleIssue,
    default_source_always_fails.2.2 "test.py" 10 5 Severity.ERROR
      IssueCategory.TYPE_ERROR "E501" "Line too long" Option.none (by decide)
      (by decide) (by decide) (by decide) (by decide)⟩

/-- Binding an error propagates the error. -/
theorem err_bind {α β : Type} (e : PyErr) (f : α → Except PyErr β) :
    (Except.error e >>= f) = .error e := rfl

/-- `data[k]` raises `KeyError` when the key is absent. -/
theorem getItem_none {d : Dict} {k : String} (h : dlookup d k = Option.none) :
    getItem d k = .error (.keyError k) := by
  unfold getItem
  rw [h]

/-- A string read of an absent key raises `KeyError`. -/
theorem getStr_none {d : Dict} {k : String} (h : dlookup d k = Option.none) :
    getStr d k = .error (.keyError k) := by
  rw [getStr, getItem_none h]
  rfl

/-- An integer read of an absent key raises `KeyError`. -/
theorem getInt_none {d : Dict} {k : String} (h : dlookup d k = Option.none) :
    getInt d k = .error (.keyError k) := by
  rw [getInt, getItem_none h]
  rfl

/-- `data.get(k)` of an absent key yields `None`. -/
theorem getOptStr_none {d : Dict} {k : String} (h : dlookup d k = Option.none) :
    getOptStr d k = .ok Option.none := by
  unfold getOptStr
  rw [h]

/-- `data.get(k, dflt)` of an absent key yields the default. -/
theorem getStrD_none {d : Dict} {k dflt : String} (h : dlookup d k = Option.none) :
    getStrD d k dflt = .ok dflt := by
  unfold getStrD
  rw [h]

/-- `data.get(k, dflt)` of an absent key yields the default. -/
theorem getBoolD_none {d : Dict} {k : String} {dflt : Bool}
    (h : dlookup d k = Option.none) : getBoolD d k dflt = .ok dflt := by
  unfold getBoolD
  rw [h]

/-- `data.get(k, [])` of an absent key yields the empty list. -/
theorem getListD_none {d : Dict} {k : String} (h : dlookup d k = Option.none) :
    getListD d k = .ok [] := by
  unfold getListD
  rw [h]

/-- `data.get(k, \x7b\x7d)` of an absent key yields the empty mapping. -/
theorem getDictD_none {d : Dict} {k : String} (h : dlookup d k = Option.none) :
    getDictD d k = .ok [] := by
  unfold getDictD
  rw [h]

/-- A serialized report with the `"issues"` and `"fixes"` keys removed. -/
def reportDictNoIssues : Dict :=
  [("summary", .dict [("total_issues", .int 0), ("errors", .int 0),
      ("warnings", .int 0), ("infos", .int 0)]),
   ("timestamp", .str "2024-01-15T10:30:00"),
   ("project_path", .str "/project")]

/-- C6 counterexample: `Report.from_dict` on a mapping lacking the
`"issues"` and `"fixes"` keys does not fail — it succeeds and silently
substitutes the empty sequences. -/
theorem report_missing_issues_counterexample :
    dlookup reportDictNoIssues "issues" = Option.none ∧
    dlookup reportDictNoIssues "fixes" = Option.none ∧
    Report.from_dict reportDictNoIssues
      = .ok ⟨[], [], ⟨0, 0, 0, 0, [], []⟩, ⟨2024, 1, 15, 10, 30, 0, 0⟩, "/project"⟩ :=
  ⟨rfl, rfl, rfl⟩

/-- C6 (amended): `from_dict` fails on a mapping lacking a required key
— for Issue: file_path, line, column, severity, category, code,
message; for Fix: file_path, original_code, fixed_code, issue,
explanation; for ReportSummary: the four counts; for Report: summary,
timestamp, project_path (the issues and fixes sequences default to
empty when absent); for Config: project_path — while keys with
documented defaults (suggestion, safe, by_category, by_file, the
Config flags, and Report issues/fixes) fall back to their default. -/
theorem from_dict_required_keys :
    (∀ (d : Dict) k,
      k ∈ (["file_path", "line", "column", "severity", "category", "code",
        "message"] : List String) → dlookup d k = Option.none →
      ∀ i, Issue.from_dict d ≠ .ok i) ∧
    (∀ (d : Dict) k,
      k ∈ (["file_path", "original_code", "fixed_code", "issue",
        "explanation"] : List String) → dlookup d k = Option.none →
      ∀ f, Fix.from_dict d ≠ .ok f) ∧
    (∀ (d : Dict) k,
      k ∈ (["total_issues", "errors", "warnings", "infos"] : List String) →
      dlookup d k = Option.none →
      ∀ s, ReportSummary.from_dict d ≠ .ok s) ∧
    (∀ (d : Dict) k,
      k ∈ (["summary", "timestamp", "project_path"] : List String) →
      dlookup d k = Option.none →
      ∀ r, Report.from_dict d ≠ .ok r) ∧
    (∀ (d : Dict), dlookup d "project_path" = Option.none →
      ∀ c, Config.from_dict d ≠ .ok c) ∧
    (∀ (d : Dict) r, dlookup d "issues" = Option.none →
      Report.from_dict d = .ok r → r.issues = []) ∧
    (∀ (d : Dict) r, dlookup d "fixes" = Option.none →
      Report.from_dict d = .ok r → r.fixes = []) ∧
    (∀ (d : Dict) i, dlookup d "suggestion" = Option.none →
      Issue.from_dict d = .ok i → i.suggestion = Option.none) ∧
    (∀ (d : Dict) f, dlookup d "safe" = Option.none →
      Fix.from_dict d = .ok f → f.safe = true) ∧
    (∀ (d : Dict) s, dlookup d "by_category" = Option.none →
      ReportSummary.from_dict d = .ok s → s.by_category = []) ∧
    (∀ (d : Dict) s, dlookup d "by_file" = Option.none →
      ReportSummary.from_dict d = .ok s → s.by_file = []) ∧
    (∀ (d : Dict) c, dlookup d "google_style_guide" = Option.none →
      Config.from_dict d = .ok c → c.google_style_guide = true) ∧
    (∀ (d : Dict) c, dlookup d "auto_fix_enabled" = Option.none →
      Config.from_dict d = .ok c → c.auto_fix_enabled = true) ∧
    (∀ (d : Dict) c, dlookup d "backup_enabled" = Option.none →
      Config.from_dict d = .ok c → c.backup_enabled = true) ∧
    (∀ (d : Dict) c, dlookup d "dry_run" = Option.none →
      Config.from_dict d = .ok c → c.dry_run = false) := by
  refine ⟨?_, ?_, ?_, ?_, ?_, ?_, ?_, ?_, ?_, ?_, ?_, ?_, ?_, ?_, ?_⟩
  · intro d k hk hnone i h
    rw [Issue.from_dict] at h
    simp only [bind_ok_iff] at h
    obtain ⟨fp, hfp, l, hl, c, hc, sev, ⟨sv, hsv, hsv2⟩, cat, ⟨cv, hcv, hcv2⟩,
      co, hco, ms, hms, su, hsu, src, hsrc, hpi⟩ := h
    fin_cases hk
    · rw [getStr_none hnone] at hfp; cases hfp
    · rw [getInt_none hnone] at hl; cases hl
    · rw [getInt_none hnone] at hc; cases hc
    · rw [getItem_none hnone] at hsv; cases hsv
    · rw [getItem_none hnone] at hcv; cases hcv
    · rw [getStr_none hnone] at hco; cases hco
    · rw [getStr_none hnone] at hms; cases hms
  · intro d k hk hnone f h
    rw [Fix.from_dict] at h
    simp only [bind_ok_iff] at h
    obtain ⟨fp, hfp, oc, hoc, fc, hfc, iss, ⟨dv, ⟨v0, hv0, hasd⟩, hfd⟩,
      ex, hex, sf, hsf, hpi⟩ := h
    fin_cases hk
    · rw [getStr_none hnone] at hfp; cases hfp
    · rw [getStr_none hnone] at hoc; cases hoc
    · rw [getStr_none hnone] at hfc; cases hfc
    · rw [getItem_none hnone] at hv0; cases hv0
    · rw [getStr_none hnone] at hex; cases hex
  · intro d k hk hnone s h
    rw [ReportSummary.from_dict] at h
    simp only [bind_ok_iff] at h
    obtain ⟨t, ht, e, he, w, hw, i2, hi2, bc, hbc, bf, hbf, hpi⟩ := h
    fin_cases hk
    · rw [getInt_none hnone] at ht; cases ht
    · rw [getInt_none hnone] at he; cases he
    · rw [getInt_none hnone] at hw; cases hw
    · rw [getInt_none hnone] at hi2; cases hi2
  · intro d k hk hnone r h
    rw [Report.from_dict] at h
    simp only [bind_ok_iff] at h
    obtain ⟨ir, hir, iss, hiss, fr, hfr, fxs, hfxs, sraw, hsraw, sd, hsd,
      summ, hsumm, tss, htss, tsv, htsv, pp, hpp, hpi⟩ := h
    fin_cases hk
    · rw [getItem_none hnone] at hsraw; cases hsraw
    · rw [getStr_none hnone] at htss; cases htss
    · rw [getStr_none hnone] at hpp; cases hpp
  · intro d hnone c h
    rw [Config.from_dict] at h
    simp only [bind_ok_iff] at h
    obtain ⟨pp, hpp, pc, hpc, rc, hrc, ex, hex, g, hg, a, ha, b, hb,
      dr, hdr, hpi⟩ := h
    rw [getStr_none hnone] at hpp
    cases hpp
  · intro d r hnone h
    rw [Report.from_dict] at h
    simp only [bind_ok_iff] at h
    obtain ⟨ir, hir, iss, hiss, fr, hfr, fxs, hfxs, sraw, hsraw, sd, hsd,
      summ, hsumm, tss, htss, tsv, htsv, pp, hpp, hpi⟩ := h
    rw [getListD_none hnone] at hir
    injection hir with h2
    subst h2
    rw [List.mapM_nil] at hiss
    injection hiss with h3
    subst h3
    obtain ⟨rfl, _⟩ := (report_post_init_ok_iff _ _).mp hpi
    rfl
  · intro d r hnone h
    rw [Report.from_dict] at h
    simp only [bind_ok_iff] at h
    obtain ⟨ir, hir, iss, hiss, fr, hfr, fxs, hfxs, sraw, hsraw, sd, hsd,
      summ, hsumm, tss, htss, tsv, htsv, pp, hpp, hpi⟩ := h
    rw [getListD_none hnone] at hfr
    injection hfr with h2
    subst h2
    rw [List.mapM_nil] at hfxs
    injection hfxs with h3
    subst h3
    obtain ⟨rfl, _⟩ := (report_post_init_ok_iff _ _).mp hpi
    rfl
  · intro d i hnone h
    rw [Issue.from_dict] at h
    simp only [bind_ok_iff] at h
    obtain ⟨fp, hfp, l, hl, c, hc, sev, ⟨sv, hsv, hsv2⟩, cat, ⟨cv, hcv, hcv2⟩,
      co, hco, ms, hms, su, hsu, src, hsrc, hpi⟩ := h
    rw [getOptStr_none hnone] at hsu
    injection hsu with h2
    subst h2
    obtain ⟨rfl, _⟩ := (Issue.post_init_ok_iff _ _).mp hpi
    rfl
  · intro d f hnone h
    rw [Fix.from_dict] at h
    simp only [bind_ok_iff] at h
    obtain ⟨fp, hfp, oc, hoc, fc, hfc, iss, ⟨dv, ⟨v0, hv0, hasd⟩, hfd⟩,
      ex, hex, sf, hsf, hpi⟩ := h
    rw [getBoolD_none hnone] at hsf
    injection hsf with h2
    subst h2
    obtain ⟨rfl, _⟩ := (fix_post_init_ok_iff _ _).mp hpi
    rfl
  · intro d s hnone h
    rw [ReportSummary.from_dict] at h
    simp only [bind_ok_iff] at h
    obtain ⟨t, ht, e, he, w, hw, i2, hi2, bc, hbc, bf, hbf, hpi⟩ := h
    rw [getDictD_none hnone] at hbc
    injection hbc with h2
    subst h2
    obtain ⟨rfl, _⟩ := (summary_post_init_ok_iff _ _).mp hpi
    rfl
  · intro d s hnone h
    rw [ReportSummary.from_dict] at h
    simp only [bind_ok_iff] at h
    obtain ⟨t, ht, e, he, w, hw, i2, hi2, bc, hbc, bf, hbf, hpi⟩ := h
    rw [getDictD_none hnone] at hbf
    injection hbf with h2
    subst h2
    obtain ⟨rfl, _⟩ := (summary_post_init_ok_iff _ _).mp hpi
    rfl
  · intro d c hnone h
    rw [Config.from_dict] at h
    simp only [bind_ok_iff] at h
    obtain ⟨pp, hpp, pc, hpc, rc, hrc, ex, hex, g, hg, a, ha, b, hb,
      dr, hdr, hpi⟩ := h
    rw [getBoolD_none hnone] at hg
    injection hg with h2
    subst h2
    obtain ⟨rfl, _⟩ := (config_post_init_ok_iff _ _).mp hpi
    rfl
  · intro d c hnone h
    rw [Config.from_dict] at h
    simp only [bind_ok_iff] at h
    obtain ⟨pp, hpp, pc, hpc, rc, hrc, ex, hex, g, hg, a, ha, b, hb,
      dr, hdr, hpi⟩ := h
    rw [getBoolD_none hnone] at ha
    injection ha with h2
    subst h2
    obtain ⟨rfl, _⟩ := (config_post_init_ok_iff _ _).mp hpi
    rfl
  · intro d c hnone h
    rw [Config.from_dict] at h
    simp only [bind_ok_iff] at h
    obtain ⟨pp, hpp, pc, hpc, rc, hrc, ex, hex, g, hg, a, ha, b, hb,
      dr, hdr, hpi⟩ := h
    rw [getBoolD_none hnone] at hb
    injection hb with h2
    subst h2
    obtain ⟨rfl, _⟩ := (config_post_init_ok_iff _ _).mp hpi
    rfl
  · intro d c hnone h
    rw [Config.from_dict] at h
    simp only [bind_ok_iff] at h
    obtain ⟨pp, hpp, pc, hpc, rc, hrc, ex, hex, g, hg, a, ha, b, hb,
      dr, hdr, hpi⟩ := h
    rw [getBoolD_none hnone] at hdr
    injection hdr with h2
    subst h2
    obtain ⟨rfl, _⟩ := (config_post_init_ok_iff _ _).mp hpi
    rfl

/-- C6 witness: missing required keys fail on concrete mappings, and
absent defaulted keys fall back, on concrete mappings. -/
theorem from_dict_required_keys_witness :
    Issue.from_dict [] ≠ .ok sampleIssue ∧
    Report.from_dict [] ≠ .ok sampleReport ∧
    (Report.from_dict reportDictNoIssues
        = .ok ⟨[], [], ⟨0, 0, 0, 0, [], []⟩, ⟨2024, 1, 15, 10, 30, 0, 0⟩, "/project"⟩ →
      (Report.mk [] [] ⟨0, 0, 0, 0, [], []⟩ ⟨2024, 1, 15, 10, 30, 0, 0⟩ "/project").issues = []) ∧
    (Config.from_dict [("project_path", .str "/p")]
        = .ok ⟨"/p", [], [], [], true, true, true, false⟩ →
      (Config.mk "/p" [] [] [] true true true false).google_style_guide = true) :=
  ⟨from_dict_required_keys.1 [] "file_path" (by decide) rfl sampleIssue,
    from_dict_required_keys.2.2.2.1 [] "summary" (by decide) rfl sampleReport,
    from_dict_required_keys.2.2.2.2.2.1 reportDictNoIssues
      ⟨[], [], ⟨0, 0, 0, 0, [], []⟩, ⟨2024, 1, 15, 10, 30, 0, 0⟩, "/project"⟩ rfl,
    from_dict_required_keys.2.2.2.2.2.2.2.2.2.2.2.1
      [("project_path", .str "/p")] ⟨"/p", [], [], [], true, true, true, false⟩ rfl⟩

/-- Python attribute assignment `issue.line = n`.  The `Issue`
dataclass is declared without `frozen=True`, so assignment is permitted
by the language and updates the field in place without re-running any
validation; the returned record is the post-state of the object. -/
def Issue.set_line (i : Issue) (n : Int) : Issue :=
  { i with line := n }

/-- C8 counterexample: attribute assignment, available to every caller
because the dataclass is not frozen, changes the `line` field of a
constructed issue — and can even leave it violating its invariant. -/
theorem issue_mutation_counterexample :
    (sampleIssue.set_line 0).line = 0 ∧ sampleIssue.line = 10 ∧
      sampleIssue.set_line 0 ≠ sampleIssue ∧
      ¬ (sampleIssue.set_line 0).Valid := by
  decide

/-- C8 (amended): equality of issues is structural field-by-field
equality, but an issue is not immutable: attribute assignment on the
non-frozen dataclass changes the assigned field (leaving the others
unchanged) with no validation. -/
theorem issue_equality_structural :
    (∀ a b : Issue, a = b ↔
      (a.file_path = b.file_path ∧ a.line = b.line ∧ a.column = b.column ∧
        a.severity = b.severity ∧ a.category = b.category ∧ a.code = b.code ∧
        a.message = b.message ∧ a.suggestion = b.suggestion ∧
        a.source = b.source)) ∧
    (∀ (i : Issue) (n : Int), (i.set_line n).line = n ∧
      (i.set_line n).file_path = i.file_path ∧
      (i.set_line n).column = i.column ∧
      (i.set_line n).severity = i.severity ∧
      (i.set_line n).category = i.category ∧
      (i.set_line n).code = i.code ∧
      (i.set_line n).message = i.message ∧
      (i.set_line n).suggestion = i.suggestion ∧
      (i.set_line n).source = i.source) := by
  constructor
  · intro a b
    constructor
    · rintro rfl
      exact ⟨rfl, rfl, rfl, rfl, rfl, rfl, rfl, rfl, rfl⟩
    · obtain ⟨af, al, ac, asv, act, aco, ams, asu, aso⟩ := a
      obtain ⟨bf, bl, bc, bsv, bct, bco, bms, bsu, bso⟩ := b
      rintro ⟨h1, h2, h3, h4, h5, h6, h7, h8, h9⟩
      simp_all
  · intro i n
    exact ⟨rfl, rfl, rfl, rfl, rfl, rfl, rfl, rfl, rfl⟩

/-- C8 witness: the structural equality and assignment conjuncts
applied to the concrete sample issue. -/
theorem issue_equality_structural_witness :
    sampleIssue = sampleIssue ∧ (sampleIssue.set_line 99).line = 99 :=
  ⟨(issue_equality_structural.1 sampleIssue sampleIssue).mpr
      ⟨rfl, rfl, rfl, rfl, rfl, rfl, rfl, rfl, rfl⟩,
    (issue_equality_structural.2 sampleIssue 99).1⟩

/-- A snapshot of the directory tree walked by the environment probe:
paths are component lists from the filesystem root. -/
structure DirFS where
  dirs : List (List String)
  files : List (List String)

/-- `root.rglob(pat)`: every entry strictly inside `root` whose final
component equals the literal pattern — `Path.rglob` yields matching
directories as well as matching files. -/
def rglobMatches (fs : DirFS) (root : List String) (pat : String) :
    List (List String) :=
  (fs.files ++ fs.dirs).filter (fun f =>
    decide (root <+: f) && decide (root.length < f.length) &&
      decide (f.getLastD "" = pat))

/-- `is_monorepo`: a directory is a monorepo when the number of
`pyproject.toml` entries found below it by `rglob`, excluding one
directly at the root, is positive; a non-directory is never a
monorepo. -/
def is_monorepo (fs : DirFS) (root : List String) : Bool :=
  if root ∈ fs.dirs then
    decide (0 < ((rglobMatches fs root "pyproject.toml").filter
      (fun f => decide (f.dropLast ≠ root))).length)
  else false

/-- Every list is an extension of its own `dropLast`. -/
theorem dropLast_isPrefix {α : Type} (l : List α) : l.dropLast <+: l :=
  ⟨l.drop (l.length - 1), by rw [List.dropLast_eq_take, List.take_append_drop]⟩

/-- A tree whose only `pyproject.toml` entry is a directory, two
levels below the root, with no files at all. -/
def dirManifestFS : DirFS :=
  ⟨[["proj"], ["proj", "sub"], ["proj", "sub", "pyproject.toml"]], []⟩

/-- C9 counterexample: `rglob` also yields directories, so a directory
named `pyproject.toml` strictly below the root makes `is_monorepo`
return true although no project-manifest file exists anywhere —
refuting the claimed iff at this input. -/
theorem is_monorepo_dir_counterexample :
    is_monorepo dirManifestFS ["proj"] = true ∧
      ¬ ∃ f ∈ dirManifestFS.files, f.getLastD "" = "pyproject.toml" ∧
        ["proj"] <+: f.dropLast ∧ f.dropLast ≠ ["proj"] := by
  constructor
  · rfl
  · rintro ⟨f, hf, -⟩
    cases hf

/-- C9 (amended): `is_monorepo` holds exactly when the path is a
directory and some entry named `pyproject.toml` — a manifest file, or,
because `rglob` yields them too, a directory — lives in a subdirectory
strictly below it; an entry directly at the root does not count, and a
non-directory yields false. -/
theorem is_monorepo_iff (fs : DirFS) (root : List String) :
    is_monorepo fs root = true ↔
      (root ∈ fs.dirs ∧ ∃ f ∈ fs.files ++ fs.dirs,
        f.getLastD "" = "pyproject.toml" ∧
        root <+: f.dropLast ∧ f.dropLast ≠ root) := by
  unfold is_monorepo rglobMatches
  split_ifs with hdir
  · rw [decide_eq_true_eq, List.length_pos_iff_exists_mem]
    constructor
    · rintro ⟨f, hf⟩
      rw [List.mem_filter] at hf
      obtain ⟨hf1, hp⟩ := hf
      rw [List.mem_filter] at hf1
      obtain ⟨hmem, hq⟩ := hf1
      simp only [Bool.and_eq_true, decide_eq_true_eq] at hq hp
      obtain ⟨⟨hpre, hlen⟩, hlast⟩ := hq
      refine ⟨hdir, f, hmem, hlast, ?_, hp⟩
      rw [List.prefix_iff_eq_take] at hpre ⊢
      rw [List.dropLast_eq_take, List.take_take]
      rw [min_eq_left (by omega)]
      exact hpre
    · rintro ⟨_, f, hmem, hlast, hpre, hne⟩
      have hpf : root <+: f := hpre.trans (dropLast_isPrefix f)
      have hlt : root.length < f.length := by
        have h1 : root.length ≤ f.dropLast.length := hpre.length_le
        have h2 : root.length ≠ f.dropLast.length := by
          intro he
          exact hne (List.IsPrefix.eq_of_length hpre he).symm
        have h3 : f.dropLast.length ≤ f.length := by
          rw [List.length_dropLast]; omega
        omega
      refine ⟨f, ?_⟩
      rw [List.mem_filter]
      refine ⟨?_, by simp [hne]⟩
      rw [List.mem_filter]
      refine ⟨hmem, ?_⟩
      simp only [Bool.and_eq_true, decide_eq_true_eq]
      exact ⟨⟨hpf, hlt⟩, hlast⟩
  · simp [hdir]

/-- A flat file store mapping paths to text contents; writing prepends,
and lookup returns the most recent binding. -/
abbrev FS := List (String × String)

/-- Content of the regular file at a path, when one exists. -/
def fsLookup : FS → String → Option String
  | [], _ => Option.none
  | (p, c) :: rest, q => if p = q then some c else fsLookup rest q

/-- Split a character list around the last occurrence of `c`. -/
def breakLast (c : Char) : List Char → Option (List Char × List Char)
  | [] => Option.none
  | x :: rest =>
    match breakLast c rest with
    | some (b, a) => some (x :: b, a)
    | Option.none => if x = c then some ([], rest) else Option.none

/-- `Path(p).parent`, as text. -/
def parentOf (p : String) : String :=
  match breakLast '/' p.data with
  | some ([], _) => "/"
  | some (b, _) => ⟨b⟩
  | Option.none => "."

/-- `Path(p).name`: the final path component. -/
def nameOf (p : String) : String :=
  match breakLast '/' p.data with
  | some (_, a) => ⟨a⟩
  | Option.none => p

/-- Split a file name into stem and extension: the extension starts at
the last dot, unless that dot is leading or trailing. -/
def splitExt (name : List Char) : List Char × List Char :=
  match breakLast '.' name with
  | some (b, a) => if b = [] ∨ a = [] then (name, []) else (b, '.' :: a)
  | Option.none => (name, [])

/-- `Path(p).stem`. -/
def stemOf (p : String) : String := ⟨(splitExt (nameOf p).data).1⟩

/-- `Path(p).suffix`. -/
def suffixOf (p : String) : String := ⟨(splitExt (nameOf p).data).2⟩

/-- Join a directory and a file name, the way `Path.__truediv__`
renders: a `"."` directory vanishes and `"/"` does not double. -/
def joinPath (d n : String) : String :=
  if d = "." then n
  else if d = "/" then "/" ++ n
  else d ++ "/" ++ n

/-- `now.strftime("%Y%m%d_%H%M%S")`: the one-second-resolution stamp
used in backup file names. -/
def timestampCompact (t : Datetime) : String :=
  ⟨padDigits 4 t.year ++ padDigits 2 t.month ++ padDigits 2 t.day ++
    '_' :: (padDigits 2 t.hour ++ padDigits 2 t.minute ++ padDigits 2 t.second)⟩

/-- `create_backup(file_path)` invoked at time `now` over the store
`fs`: a missing path raises `FileNotFoundError`; otherwise the content
is copied to a timestamped sibling whose path is returned. -/
def create_backup (fs : FS) (now : Datetime) (file_path : String) :
    Except PyErr (String × FS) :=
  match fsLookup fs file_path with
  | Option.none => .error (.fileNotFoundError ("File not found: " ++ file_path))
  | some content =>
    let backup_path := joinPath (parentOf file_path)
      (stemOf file_path ++ ".backup_" ++ timestampCompact now ++ suffixOf file_path)
    .ok (backup_path, (backup_path, content) :: fs)

theorem breakLast_not_mem {c : Char} {cs : List Char} (h : c ∉ cs) :
    breakLast c cs = Option.none := by
  induction cs with
  | nil => rfl
  | cons x rest ih =>
    have hx : ¬ x = c := fun he => h (he ▸ List.mem_cons_self x rest)
    have hr : c ∉ rest := fun hm => h (List.mem_cons_of_mem x hm)
    simp [breakLast, ih hr, hx]

theorem breakLast_none {c : Char} :
    ∀ {cs : List Char}, breakLast c cs = Option.none → c ∉ cs := by
  intro cs
  induction cs with
  | nil => intro _ hm; cases hm
  | cons x rest ih =>
    intro h hm
    rw [breakLast] at h
    rcases hr : breakLast c rest with _ | ⟨b2, a2⟩
    · rw [hr] at h
      split_ifs at h with hx
      rcases List.mem_cons.mp hm with he | hm2
      · exact hx he.symm
      · exact ih hr hm2
    · rw [hr] at h
      cases h

theorem breakLast_append {c : Char} (d : List Char) {n : List Char} (h : c ∉ n) :
    breakLast c (d ++ c :: n) = some (d, n) := by
  induction d with
  | nil => simp [breakLast, breakLast_not_mem h]
  | cons x rest ih => simp [breakLast, ih]

theorem breakLast_tail_not_mem {c : Char} :
    ∀ {cs b a : List Char}, breakLast c cs = some (b, a) → c ∉ a := by
  intro cs
  induction cs with
  | nil => intro b a h; cases h
  | cons x rest ih =>
    intro b a h
    rw [breakLast] at h
    rcases hr : breakLast c rest with _ | ⟨b2, a2⟩
    · rw [hr] at h
      split_ifs at h with hx
      simp only [Option.some.injEq, Prod.mk.injEq] at h
      obtain ⟨h3, h4⟩ := h
      subst h4
      exact breakLast_none hr
    · rw [hr] at h
      simp only [Option.some.injEq, Prod.mk.injEq] at h
      obtain ⟨h3, h4⟩ := h
      subst h4
      exact ih hr

theorem breakLast_recover {c : Char} :
    ∀ {cs b a : List Char}, breakLast c cs = some (b, a) → cs = b ++ c :: a := by
  intro cs
  induction cs with
  | nil => intro b a h; cases h
  | cons x rest ih =>
    intro b a h
    rw [breakLast] at h
    rcases hr : breakLast c rest with _ | ⟨b2, a2⟩
    · rw [hr] at h
      split_ifs at h with hx
      simp only [Option.some.injEq, Prod.mk.injEq] at h
      obtain ⟨h3, h4⟩ := h
      subst h3
      subst h4
      rw [hx]
      rfl
    · rw [hr] at h
      simp only [Option.some.injEq, Prod.mk.injEq] at h
      obtain ⟨h3, h4⟩ := h
      subst h3
      subst h4
      rw [List.cons_append]
      rw [← ih hr]

theorem nameOf_no_slash (p : String) : '/' ∉ (nameOf p).data := by
  unfold nameOf
  rcases hb : breakLast '/' p.data with _ | ⟨b, a⟩
  · exact breakLast_none hb
  · exact breakLast_tail_not_mem hb

theorem stemOf_no_slash (p : String) : '/' ∉ (stemOf p).data := by
  unfold stemOf splitExt
  rcases hb : breakLast '.' (nameOf p).data with _ | ⟨b, a⟩ <;> dsimp only
  · exact nameOf_no_slash p
  · split_ifs
    · exact nameOf_no_slash p
    · intro hm
      exact nameOf_no_slash p (by
        rw [breakLast_recover hb]
        exact List.mem_append.mpr (Or.inl hm))

theorem suffixOf_no_slash (p : String) : '/' ∉ (suffixOf p).data := by
  unfold suffixOf splitExt
  rcases hb : breakLast '.' (nameOf p).data with _ | ⟨b, a⟩ <;> dsimp only
  · intro hm; cases hm
  · split_ifs
    · intro hm; cases hm
    · intro hm
      rcases List.mem_cons.mp hm with he | hm2
      · cases he
      · exact nameOf_no_slash p (by
          rw [breakLast_recover hb]
          exact List.mem_append.mpr (Or.inr (List.mem_cons_of_mem _ hm2)))

theorem mem_padDigits_isDigit {c : Char} {w n : Nat} (h : c ∈ padDigits w n) :
    c.isDigit = true :=
  List.all_eq_true.mp (padDigits_isDigit w n) c h

theorem timestampCompact_no_slash (t : Datetime) :
    '/' ∉ (timestampCompact t).data := by
  have hpad : ∀ (w n : Nat), '/' ∉ padDigits w n := fun w n hm =>
    absurd (mem_padDigits_isDigit hm) (by decide)
  intro hm
  unfold timestampCompact at hm
  rcases List.mem_append.mp hm with h | h
  · rcases List.mem_append.mp h with h2 | h2
    · rcases List.mem_append.mp h2 with h3 | h3
      · exact hpad _ _ h3
      · exact hpad _ _ h3
    · exact hpad _ _ h2
  · rcases List.mem_cons.mp h with h2 | h2
    · exact absurd h2 (by decide)
    · rcases List.mem_append.mp h2 with h3 | h3
      · rcases List.mem_append.mp h3 with h4 | h4
        · exact hpad _ _ h4
        · exact hpad _ _ h4
      · exact hpad _ _ h3

theorem parentOf_data_ne_nil (p : String) : (parentOf p).data ≠ [] := by
  unfold parentOf
  rcases hb : breakLast '/' p.data with _ | ⟨b, a⟩
  · show ("." : String).data ≠ []
    decide
  · rcases b with _ | ⟨x, xs⟩
    · show ("/" : String).data ≠ []
      decide
    · show (String.mk (x :: xs)).data ≠ []
      simp

theorem parentOf_root (n : String) (hns : '/' ∉ n.data) :
    parentOf ("/" ++ n) = "/" := by
  have hdata : (("/" : String) ++ n).data = '/' :: n.data := by
    simp [String.data_append]
  unfold parentOf
  rw [hdata, show breakLast '/' ('/' :: n.data) = some (([] : List Char), n.data)
    from breakLast_append [] hns]

theorem parentOf_of_data (q : String) (x : Char) (xs : List Char) (n : String)
    (hq : q.data = x :: xs) (hns : '/' ∉ n.data) :
    parentOf (q ++ "/" ++ n) = q := by
  have hdata : (q ++ "/" ++ n).data = (x :: xs) ++ '/' :: n.data := by
    simp [String.data_append, hq]
  unfold parentOf
  rw [hdata, breakLast_append (x :: xs) hns]
  exact String.ext hq.symm

/-- Joining a slash-free name under the parent of any path, then
taking the parent, returns to that same parent. -/
theorem parentOf_joinPath_parentOf (p n : String) (hns : '/' ∉ n.data) :
    parentOf (joinPath (parentOf p) n) = parentOf p := by
  unfold joinPath
  split_ifs with h1 h2
  · rw [h1]
    unfold parentOf
    rw [breakLast_not_mem hns]
  · rw [h2, parentOf_root n hns]
  · rcases hd : (parentOf p).data with _ | ⟨x, xs⟩
    · exact absurd hd (parentOf_data_ne_nil p)
    · exact parentOf_of_data (parentOf p) x xs n hd hns

/-- C5: on an existing file, `create_backup` returns a path joined from
the original parent directory, stem, one-second timestamp and suffix;
the new store holds the identical content at that path, the original
content is unchanged, and the backup sits in the same directory.  On a
missing path it fails with a not-found error. -/
theorem create_backup_spec :
    (∀ (fs : FS) (now : Datetime) (p content : String),
      fsLookup fs p = some content →
      ∃ bp fs2, create_backup fs now p = .ok (bp, fs2) ∧
        fsLookup fs2 bp = some content ∧
        fsLookup fs2 p = some content ∧
        parentOf bp = parentOf p ∧
        bp = joinPath (parentOf p)
          (stemOf p ++ ".backup_" ++ timestampCompact now ++ suffixOf p)) ∧
    (∀ (fs : FS) (now : Datetime) (p : String),
      fsLookup fs p = Option.none →
      create_backup fs now p
        = .error (.fileNotFoundError ("File not found: " ++ p))) := by
  constructor
  · intro fs now p content h
    refine ⟨_, _, by unfold create_backup; rw [h], ?_, ?_, ?_, rfl⟩
    · show (if joinPath (parentOf p) _ = joinPath (parentOf p) _
          then some content else fsLookup fs _) = some content
      rw [if_pos rfl]
    · show (if joinPath (parentOf p) _ = p then some content else fsLookup fs p)
        = some content
      split_ifs
      · rfl
      · exact h
    · apply parentOf_joinPath_parentOf
      intro hm
      simp only [String.data_append, List.mem_append] at hm
      rcases hm with ((h1 | h1) | h1) | h1
      · exact stemOf_no_slash p h1
      · exact absurd h1 (by decide)
      · exact timestampCompact_no_slash now h1
      · exact suffixOf_no_slash p h1
  · intro fs now p h
    unfold create_backup
    rw [h]

/-- C5 witness: a backup of `dir/test.py` holding `"original content"`
at the sample time, and the not-found failure on a missing path. -/
theorem create_backup_spec_witness :
    (∃ bp fs2,
      create_backup [("dir/test.py", "original content")] sampleDatetime
          "dir/test.py" = .ok (bp, fs2) ∧
        fsLookup fs2 bp = some "original content" ∧
        fsLookup fs2 "dir/test.py" = some "original content" ∧
        parentOf bp = parentOf "dir/test.py" ∧
        bp = joinPath (parentOf "dir/test.py")
          (stemOf "dir/test.py" ++ ".backup_" ++ timestampCompact sampleDatetime ++
            suffixOf "dir/test.py")) ∧
    create_backup [] sampleDatetime "missing.py"
      = .error (.fileNotFoundError ("File not found: " ++ "missing.py")) :=
  ⟨create_backup_spec.1 [("dir/test.py", "original content")] sampleDatetime
      "dir/test.py" "original content" rfl,
    create_backup_spec.2 [] sampleDatetime "missing.py" rfl⟩

end Zpy
